import Mathlib

/-!
Verification of the HiitHero interval-timer state machine.

The JavaScript module createTimer(config, callbacks) is embedded shallowly:
the mutable closure state (the state record plus the module-level variables
rafId, lastTimestamp, lastDisplayedSecond) becomes the structure Machine, and
every operation becomes a pure function Machine → Machine × List Event, the
event list recording the callback invocations in order. Timestamps and all
numeric fields are modelled as Int, matching JavaScript number arithmetic on
the integral values the module manipulates.
-/

namespace HiitHero

/-- The STATES table of the timer module. -/
inductive Status where
  | IDLE
  | COUNTDOWN
  | WORK
  | REST
  | PAUSED
  | COMPLETE
deriving DecidableEq, Repr

/-- The configuration object passed to createTimer: work seconds, rest
seconds and round count. -/
structure Config where
  workDuration : Int
  restDuration : Int
  rounds : Int
deriving DecidableEq, Repr

/-- The snapshot returned by getState and carried by onTick. -/
structure Snapshot where
  status : Status
  currentRound : Int
  totalRounds : Int
  timeRemaining : Int
  phaseDuration : Int
deriving DecidableEq, Repr

/-- One callback invocation, with its arguments. -/
inductive Event where
  | onTick (snap : Snapshot)
  | onPhaseChange (phase : Status)
  | onRoundChange (currentRound totalRounds : Int)
  | onSound (cue : String)
  | onComplete (rounds workDuration restDuration : Int)
  | onStateChange (status : Status)
deriving DecidableEq, Repr

/-- Whole closure state of one timer instance: the state record plus the
module-level rafId (modelled as the Boolean rafScheduled), lastTimestamp and
lastDisplayedSecond variables. -/
structure Machine where
  config : Config
  status : Status
  previousStatus : Option Status
  currentRound : Int
  totalRounds : Int
  timeRemaining : Int
  phaseDuration : Int
  rafScheduled : Bool
  lastTimestamp : Option Int
  lastDisplayedSecond : Option Int
deriving DecidableEq, Repr

/-- The state record as initialised by createTimer. -/
def createTimer (cfg : Config) : Machine :=
  { config := cfg
    status := .IDLE
    previousStatus := none
    currentRound := 1
    totalRounds := cfg.rounds
    timeRemaining := 0
    phaseDuration := 0
    rafScheduled := false
    lastTimestamp := none
    lastDisplayedSecond := none }

/-- getState: immutable snapshot of the public state fields. -/
def getState (m : Machine) : Snapshot :=
  { status := m.status
    currentRound := m.currentRound
    totalRounds := m.totalRounds
    timeRemaining := m.timeRemaining
    phaseDuration := m.phaseDuration }

/-- handlePhaseEnd: the phase-end transition logic, including the callbacks
it fires and the rescheduling it performs. -/
def handlePhaseEnd (m : Machine) : Machine × List Event :=
  match m.status with
  | .COUNTDOWN =>
      ({ m with status := .WORK
                timeRemaining := m.config.workDuration * 1000
                phaseDuration := m.config.workDuration * 1000
                lastDisplayedSecond := none
                rafScheduled := true },
       [Event.onPhaseChange .WORK, Event.onSound "start"])
  | .WORK =>
      if m.currentRound ≥ m.totalRounds then
        ({ m with status := .COMPLETE },
         [Event.onComplete m.totalRounds m.config.workDuration m.config.restDuration,
          Event.onSound "complete",
          Event.onStateChange .COMPLETE])
      else
        ({ m with status := .REST
                  timeRemaining := m.config.restDuration * 1000
                  phaseDuration := m.config.restDuration * 1000
                  lastDisplayedSecond := none
                  rafScheduled := true },
         [Event.onPhaseChange .REST, Event.onSound "workToRest"])
  | .REST =>
      ({ m with currentRound := m.currentRound + 1
                status := .WORK
                timeRemaining := m.config.workDuration * 1000
                phaseDuration := m.config.workDuration * 1000
                lastDisplayedSecond := none
                rafScheduled := true },
       [Event.onPhaseChange .WORK,
        Event.onRoundChange (m.currentRound + 1) m.totalRounds,
        Event.onSound "restToWork"])
  | _ => (m, [])

/-- The delta a tick at timestamp ts computes: the wall-clock difference to
lastTimestamp (zero on the first tick after start or resume, when
lastTimestamp is null), capped at 1000. -/
def tickDelta (ts : Int) (m : Machine) : Int :=
  let last := m.lastTimestamp.getD ts
  let d := ts - last
  if d > 1000 then 1000 else d

/-- Math.ceil(x / 1000) for the non-negative values the module feeds it. -/
def ceilSeconds (x : Int) : Int := (x + 999) / 1000

/-- The tick procedure, as invoked by requestAnimationFrame with the frame
timestamp. Entering the tick consumes the scheduled frame. -/
def tick (ts : Int) (m : Machine) : Machine × List Event :=
  let delta := tickDelta ts m
  let m1 : Machine :=
    { m with lastTimestamp := some ts
             rafScheduled := false
             timeRemaining := m.timeRemaining - delta }
  if m1.timeRemaining ≤ 0 then
    let m2 : Machine := { m1 with timeRemaining := 0 }
    let r := handlePhaseEnd m2
    (r.1, Event.onTick (getState m2) :: r.2)
  else
    let currentSecond := ceilSeconds m1.timeRemaining
    if m1.lastDisplayedSecond = some currentSecond then
      let m2 : Machine := { m1 with rafScheduled := true }
      (m2, [Event.onTick (getState m2)])
    else
      let m2 : Machine :=
        { m1 with lastDisplayedSecond := some currentSecond, rafScheduled := true }
      if currentSecond ≤ 3 ∧ 1 ≤ currentSecond ∧ m1.status ≠ .COUNTDOWN then
        (m2, [Event.onSound "countdown", Event.onTick (getState m2)])
      else
        (m2, [Event.onTick (getState m2)])

/-- start: only from IDLE; installs the fixed 3000 ms countdown. -/
def start (m : Machine) : Machine × List Event :=
  if m.status = .IDLE then
    ({ m with currentRound := 1
              totalRounds := m.config.rounds
              status := .COUNTDOWN
              timeRemaining := 3000
              phaseDuration := 3000
              lastTimestamp := none
              lastDisplayedSecond := none
              rafScheduled := true },
     [Event.onPhaseChange .COUNTDOWN,
      Event.onRoundChange 1 m.config.rounds,
      Event.onStateChange .COUNTDOWN])
  else (m, [])

/-- The statuses from which pause and skip act (COUNTDOWN, WORK, REST). -/
def isInterruptible (s : Status) : Bool :=
  match s with
  | .COUNTDOWN => true
  | .WORK => true
  | .REST => true
  | _ => false

/-- pause: only from an interruptible status; cancels the pending frame and
records the interrupted status. -/
def pause (m : Machine) : Machine × List Event :=
  if isInterruptible m.status then
    ({ m with rafScheduled := false
              previousStatus := some m.status
              status := .PAUSED },
     [Event.onStateChange .PAUSED])
  else (m, [])

/-- resume: only from PAUSED with a recorded previous status; clears the
clock reference so the next delta starts from the resume instant. -/
def resume (m : Machine) : Machine × List Event :=
  match m.status, m.previousStatus with
  | .PAUSED, some prev =>
      ({ m with status := prev
                previousStatus := none
                lastTimestamp := none
                rafScheduled := true },
       [Event.onStateChange prev])
  | _, _ => (m, [])

/-- reset: from any state; cancels the pending frame and restores the
initial field values (totalRounds is left as is). -/
def reset (m : Machine) : Machine × List Event :=
  ({ m with rafScheduled := false
            status := .IDLE
            previousStatus := none
            currentRound := 1
            timeRemaining := 0
            phaseDuration := 0
            lastTimestamp := none
            lastDisplayedSecond := none },
   [Event.onStateChange .IDLE])

/-- skip: restores the interrupted status when paused, then forces the
current phase to end via handlePhaseEnd. -/
def skip (m : Machine) : Machine × List Event :=
  let m0 : Machine :=
    match m.status, m.previousStatus with
    | .PAUSED, some prev => { m with status := prev, previousStatus := none }
    | _, _ => m
  if isInterruptible m0.status then
    handlePhaseEnd { m0 with timeRemaining := 0, rafScheduled := false }
  else (m0, [])

/-- Iterated skip: n consecutive skip() calls, with the concatenated
callback trace. -/
def skipN : Nat → Machine → Machine × List Event
  | 0, m => (m, [])
  | n + 1, m =>
      let r1 := skip m
      let r2 := skipN n r1.1
      (r2.1, r1.2 ++ r2.2)

/-- A full run: start() on a fresh timer, then every phase of the workout is
made to expire (one countdown, then rounds work phases and rounds - 1 rest
phases, hence 2 * rounds expiries). -/
def fullRun (cfg : Config) : Machine × List Event :=
  let r1 := start (createTimer cfg)
  let r2 := skipN (2 * cfg.rounds.toNat) r1.1
  (r2.1, r1.2 ++ r2.2)

/-- The onPhaseChange arguments of a trace, in order. -/
def phaseSeq (evs : List Event) : List Status :=
  evs.filterMap fun e =>
    match e with
    | Event.onPhaseChange p => some p
    | _ => none

/-- The onStateChange arguments of a trace, in order. -/
def stateChanges (evs : List Event) : List Status :=
  evs.filterMap fun e =>
    match e with
    | Event.onStateChange s => some s
    | _ => none

/-- How many onComplete callbacks a trace contains. -/
def completeCount (evs : List Event) : Nat :=
  evs.countP fun e =>
    match e with
    | Event.onComplete _ _ _ => true
    | _ => false

/-- n REST/WORK pairs: the phase-change arguments of n full
rest-then-next-round cycles. -/
def restWorkPairs : Nat → List Status
  | 0 => []
  | n + 1 => Status.REST :: Status.WORK :: restWorkPairs n

/-- The expected phase-change sequence of an n-round workout after the
countdown: WORK, then n - 1 REST/WORK pairs (strictly alternating, n WORK
phases and n - 1 REST phases in total). -/
def workRestSeq : Nat → List Status
  | 0 => []
  | n + 1 => Status.WORK :: restWorkPairs n

/-- The controller's clamp helper: Math.max(min, Math.min(max, val)). -/
def clamp (v mn mx : Int) : Int := max mn (min mx v)

/-- Whitespace skipped by parseInt before reading the number. -/
def isSpaceChar (c : Char) : Bool :=
  c = ' ' || c = '\t' || c = '\n' || c = '\r' || c = '\x0b' || c = '\x0c'

/-- Value of a run of decimal digit characters. -/
def digitsVal (ds : List Char) : Nat :=
  ds.foldl (fun a c => a * 10 + (c.toNat - 48)) 0

/-- Longest leading run of decimal digits, or none when there is no digit
(the NaN case of parseInt). -/
def parseDigitRun (cs : List Char) : Option Nat :=
  let ds := cs.takeWhile Char.isDigit
  if ds.isEmpty then none else some (digitsVal ds)

/-- JavaScript parseInt(text, 10): skip leading whitespace, read an optional
sign and then the longest run of decimal digits; NaN (none) when no digit
follows. -/
def jsParseInt10 (s : String) : Option Int :=
  match s.data.dropWhile isSpaceChar with
  | '-' :: rest => (parseDigitRun rest).map fun n => -(n : Int)
  | '+' :: rest => (parseDigitRun rest).map fun n => (n : Int)
  | cs => (parseDigitRun cs).map fun n => (n : Int)

/-- sanitizeNumericInput: parseInt the field text, fall back when it is NaN,
then clamp into [mn, mx] (the write-back to the input field does not affect
the returned value). -/
def sanitizeNumericInput (text : String) (mn mx fallback : Int) : Int :=
  let parsed := (jsParseInt10 text).getD fallback
  clamp parsed mn mx

/-- getSettings: the configuration the controller builds from the three
input fields and passes to createTimer. -/
def getSettings (workText restText roundsText : String) : Config :=
  { workDuration := sanitizeNumericInput workText 5 300 30
    restDuration := sanitizeNumericInput restText 5 300 15
    rounds := sanitizeNumericInput roundsText 1 50 8 }

/-- A concrete mid-work state used to exercise the delta clamp. -/
def mGap : Machine :=
  { config := ⟨30, 15, 2⟩
    status := .WORK
    previousStatus := none
    currentRound := 1
    totalRounds := 2
    timeRemaining := 5000
    phaseDuration := 30000
    rafScheduled := true
    lastTimestamp := some 0
    lastDisplayedSecond := none }

/-- A reachable state 1000 ms before the countdown expires: start, then
ticks at 0, 1000 and 2000 ms. -/
def mCd : Machine :=
  (tick 2000 (tick 1000 (tick 0 (start (createTimer ⟨30, 15, 2⟩)).1).1).1).1

/-- A reachable paused state: start then pause during the countdown. -/
def mPd : Machine := (pause (start (createTimer ⟨30, 15, 2⟩)).1).1

/-- States reachable from construction through the public operations, with
ticks firing only while a frame is scheduled. -/
inductive Reachable (cfg : Config) : Machine → Prop where
  | init : Reachable cfg (createTimer cfg)
  | start_step {m : Machine} : Reachable cfg m → Reachable cfg (start m).1
  | pause_step {m : Machine} : Reachable cfg m → Reachable cfg (pause m).1
  | resume_step {m : Machine} : Reachable cfg m → Reachable cfg (resume m).1
  | reset_step {m : Machine} : Reachable cfg m → Reachable cfg (reset m).1
  | skip_step {m : Machine} : Reachable cfg m → Reachable cfg (skip m).1
  | tick_step {m : Machine} (ts : Int) : Reachable cfg m → m.rafScheduled = true →
      Reachable cfg (tick ts m).1

/-- The phase duration the module keeps while in each non-paused status
(COMPLETE retains the duration of the final work phase). -/
def phaseOf (cfg : Config) (s : Status) : Option Int :=
  match s with
  | .IDLE => some 0
  | .COUNTDOWN => some 3000
  | .WORK => some (cfg.workDuration * 1000)
  | .REST => some (cfg.restDuration * 1000)
  | .COMPLETE => some (cfg.workDuration * 1000)
  | .PAUSED => none

/-- phaseDuration agrees with the current status; while paused it agrees
with the recorded interrupted status, which is always interruptible. -/
def phaseFits (cfg : Config) (m : Machine) : Prop :=
  match m.status with
  | .PAUSED =>
      match m.previousStatus with
      | some prev => isInterruptible prev = true ∧ phaseOf cfg prev = some m.phaseDuration
      | none => False
  | s => phaseOf cfg s = some m.phaseDuration

/-- The reachability invariant of a timer instance: the configuration and
round snapshot are stable, currentRound stays within [1, totalRounds] and is
strictly below it in (possibly paused) REST, previousStatus is only held
while paused, and phaseDuration tracks the (interrupted) status. -/
def Inv (cfg : Config) (m : Machine) : Prop :=
  m.config = cfg ∧
  m.totalRounds = cfg.rounds ∧
  1 ≤ m.currentRound ∧
  m.currentRound ≤ m.totalRounds ∧
  (m.status = .REST → m.currentRound < m.totalRounds) ∧
  (m.previousStatus = some .REST → m.currentRound < m.totalRounds) ∧
  (m.status ≠ .PAUSED → m.previousStatus = none) ∧
  phaseFits cfg m


theorem inv_createTimer (cfg : Config) (h : 1 ≤ cfg.rounds) : Inv cfg (createTimer cfg) := by
  refine ⟨rfl, rfl, le_refl 1, h, ?_, ?_, ?_, ?_⟩ <;> simp [createTimer, phaseFits, phaseOf]

theorem inv_handlePhaseEnd {cfg : Config} {m : Machine} (h : Inv cfg m) :
    Inv cfg (handlePhaseEnd m).1 := by
  obtain ⟨hc, ht, h1, h2, h3, h4, h5, h6⟩ := h
  unfold Inv phaseFits at *
  cases hs : m.status <;>
    simp_all only [handlePhaseEnd, phaseOf, isInterruptible] <;>
    first
      | (constructor <;> simp_all [phaseOf] <;> omega)
      | (split <;> simp_all [phaseOf] <;> (try constructor) <;> simp_all <;> omega)
      | simp_all


theorem inv_start {cfg : Config} {m : Machine} (hr : 1 ≤ cfg.rounds) (h : Inv cfg m) :
    Inv cfg (start m).1 := by
  obtain ⟨hc, ht, h1, h2, h3, h4, h5, h6⟩ := h
  unfold Inv phaseFits at *
  unfold start
  split <;> simp_all [phaseOf]

theorem inv_pause {cfg : Config} {m : Machine} (h : Inv cfg m) :
    Inv cfg (pause m).1 := by
  obtain ⟨hc, ht, h1, h2, h3, h4, h5, h6⟩ := h
  unfold Inv phaseFits at *
  unfold pause
  cases hs : m.status <;> simp_all [phaseOf, isInterruptible]

theorem inv_resume {cfg : Config} {m : Machine} (h : Inv cfg m) :
    Inv cfg (resume m).1 := by
  obtain ⟨hc, ht, h1, h2, h3, h4, h5, h6⟩ := h
  unfold Inv phaseFits at *
  unfold resume
  cases hs : m.status <;> cases hp : m.previousStatus <;>
    simp_all [phaseOf, isInterruptible] <;>
    (rename_i prev ; cases prev <;> simp_all [phaseOf, isInterruptible])

theorem inv_reset {cfg : Config} {m : Machine} (h : Inv cfg m) :
    Inv cfg (reset m).1 := by
  obtain ⟨hc, ht, h1, h2, h3, h4, h5, h6⟩ := h
  unfold Inv phaseFits at *
  simp_all [reset, phaseOf]
  omega


theorem inv_clock {cfg : Config} {m : Machine} (h : Inv cfg m)
    (t : Int) (b : Bool) (o l : Option Int) :
    Inv cfg { m with timeRemaining := t, rafScheduled := b, lastTimestamp := o,
                     lastDisplayedSecond := l } := by
  obtain ⟨hc, ht, h1, h2, h3, h4, h5, h6⟩ := h
  unfold Inv phaseFits at *
  cases hs : m.status <;> simp_all [phaseOf]

theorem inv_timeFields {cfg : Config} {m : Machine} (h : Inv cfg m) (t : Int) :
    Inv cfg { m with timeRemaining := t, rafScheduled := false } := by
  obtain ⟨hc, ht, h1, h2, h3, h4, h5, h6⟩ := h
  unfold Inv phaseFits at *
  cases hs : m.status <;> simp_all [phaseOf]

theorem inv_timeStatus {cfg : Config} {m : Machine} {s : Status} (h : Inv cfg m)
    (hs : m.status = s) :
    Inv cfg { m with status := s, timeRemaining := 0, rafScheduled := false } := by
  subst hs
  exact inv_timeFields h 0

theorem inv_restore {cfg : Config} {m : Machine} {prev : Status}
    (h : Inv cfg m) (hs : m.status = .PAUSED) (hp : m.previousStatus = some prev) :
    Inv cfg { m with status := prev, previousStatus := none } := by
  obtain ⟨hc, ht, h1, h2, h3, h4, h5, h6⟩ := h
  unfold Inv phaseFits at *
  cases prev <;> simp_all [phaseOf, isInterruptible]

theorem inv_skip {cfg : Config} {m : Machine} (h : Inv cfg m) :
    Inv cfg (skip m).1 := by
  unfold skip
  cases hs : m.status
  case PAUSED =>
    cases hp : m.previousStatus
    case none =>
      exfalso
      obtain ⟨_, _, _, _, _, _, _, h6⟩ := h
      unfold phaseFits at h6
      simp_all
    case some prev =>
      have h0 := inv_restore h hs hp
      cases prev <;>
        simp only [hs, hp, isInterruptible, if_true, if_false] <;>
        first
          | exact inv_handlePhaseEnd (inv_timeFields h0 0)
          | exact h0
  all_goals
    simp only [hs, isInterruptible, if_true, if_false] <;>
    first
      | exact inv_handlePhaseEnd (inv_timeStatus h hs)
      | exact h

theorem inv_tick {cfg : Config} {m : Machine} (ts : Int) (h : Inv cfg m) :
    Inv cfg (tick ts m).1 := by
  unfold tick
  dsimp only
  split
  · exact inv_handlePhaseEnd (inv_clock h 0 false (some ts) m.lastDisplayedSecond)
  · split
    · exact inv_clock h _ true (some ts) m.lastDisplayedSecond
    · split
      · exact inv_clock h _ true (some ts) (some _)
      · exact inv_clock h _ true (some ts) (some _)

theorem inv_reachable {cfg : Config} {m : Machine} (hr : 1 ≤ cfg.rounds)
    (h : Reachable cfg m) : Inv cfg m := by
  induction h with
  | init => exact inv_createTimer cfg hr
  | start_step _ ih => exact inv_start hr ih
  | pause_step _ ih => exact inv_pause ih
  | resume_step _ ih => exact inv_resume ih
  | reset_step _ ih => exact inv_reset ih
  | skip_step _ ih => exact inv_skip ih
  | tick_step ts _ _ ih => exact inv_tick ts ih


theorem handlePhaseEnd_frame (m : Machine) :
    (handlePhaseEnd m).1.config = m.config ∧
    (handlePhaseEnd m).1.totalRounds = m.totalRounds := by
  unfold handlePhaseEnd
  cases hs : m.status <;> dsimp only <;>
    first | (split <;> exact ⟨rfl, rfl⟩) | exact ⟨rfl, rfl⟩

theorem tick_frame (ts : Int) (m : Machine) :
    (tick ts m).1.config = m.config ∧ (tick ts m).1.totalRounds = m.totalRounds := by
  unfold tick
  dsimp only
  split
  · exact handlePhaseEnd_frame _
  · split
    · exact ⟨rfl, rfl⟩
    · split <;> exact ⟨rfl, rfl⟩

theorem skip_frame (m : Machine) :
    (skip m).1.config = m.config ∧ (skip m).1.totalRounds = m.totalRounds := by
  unfold skip
  cases hs : m.status
  case PAUSED =>
    cases hp : m.previousStatus
    case none => simp [hs, hp, isInterruptible]
    case some prev =>
      cases prev <;> simp [hs, hp, isInterruptible] <;>
        first
          | exact ⟨rfl, rfl⟩
          | exact handlePhaseEnd_frame _
  all_goals
    simp [hs, isInterruptible] <;>
    first
      | exact ⟨rfl, rfl⟩
      | exact handlePhaseEnd_frame _

theorem reachable_base {cfg : Config} {m : Machine} (h : Reachable cfg m) :
    m.config = cfg ∧ m.totalRounds = cfg.rounds := by
  induction h with
  | init => exact ⟨rfl, rfl⟩
  | start_step _ ih =>
      obtain ⟨hc, ht⟩ := ih
      unfold start
      split
      · exact ⟨hc, by rw [hc]⟩
      · exact ⟨hc, ht⟩
  | pause_step _ ih =>
      obtain ⟨hc, ht⟩ := ih
      unfold pause
      split <;> exact ⟨hc, ht⟩
  | resume_step _ ih =>
      obtain ⟨hc, ht⟩ := ih
      unfold resume
      split <;> exact ⟨hc, ht⟩
  | reset_step _ ih =>
      obtain ⟨hc, ht⟩ := ih
      exact ⟨hc, ht⟩
  | skip_step _ ih =>
      obtain ⟨hc, ht⟩ := ih
      exact ⟨(skip_frame _).1.trans hc, (skip_frame _).2.trans ht⟩
  | tick_step ts _ _ ih =>
      obtain ⟨hc, ht⟩ := ih
      exact ⟨(tick_frame ts _).1.trans hc, (tick_frame ts _).2.trans ht⟩


theorem skip_countdown {m : Machine} (hs : m.status = .COUNTDOWN) :
    skip m = ({ m with status := .WORK,
                       timeRemaining := m.config.workDuration * 1000,
                       phaseDuration := m.config.workDuration * 1000,
                       rafScheduled := true,
                       lastDisplayedSecond := none },
              [Event.onPhaseChange .WORK, Event.onSound "start"]) := by
  unfold skip handlePhaseEnd
  simp [hs, isInterruptible]

theorem skip_work_last {m : Machine} (hs : m.status = .WORK)
    (hge : m.totalRounds ≤ m.currentRound) :
    skip m = ({ m with status := .COMPLETE, timeRemaining := 0, rafScheduled := false },
              [Event.onComplete m.totalRounds m.config.workDuration m.config.restDuration,
               Event.onSound "complete", Event.onStateChange .COMPLETE]) := by
  unfold skip handlePhaseEnd
  simp [hs, isInterruptible, hge]

theorem skip_work_mid {m : Machine} (hs : m.status = .WORK)
    (hlt : m.currentRound < m.totalRounds) :
    skip m = ({ m with status := .REST,
                       timeRemaining := m.config.restDuration * 1000,
                       phaseDuration := m.config.restDuration * 1000,
                       rafScheduled := true,
                       lastDisplayedSecond := none },
              [Event.onPhaseChange .REST, Event.onSound "workToRest"]) := by
  unfold skip handlePhaseEnd
  simp [hs, isInterruptible, not_le.mpr hlt]

theorem skip_rest {m : Machine} (hs : m.status = .REST) :
    skip m = ({ m with currentRound := m.currentRound + 1,
                       status := .WORK,
                       timeRemaining := m.config.workDuration * 1000,
                       phaseDuration := m.config.workDuration * 1000,
                       rafScheduled := true,
                       lastDisplayedSecond := none },
              [Event.onPhaseChange .WORK,
               Event.onRoundChange (m.currentRound + 1) m.totalRounds,
               Event.onSound "restToWork"]) := by
  unfold skip handlePhaseEnd
  simp [hs, isInterruptible]


theorem skipN_succ (n : Nat) (m : Machine) :
    skipN (n + 1) m = ((skipN n (skip m).1).1, (skip m).2 ++ (skipN n (skip m).1).2) := rfl

theorem phaseSeq_append (a b : List Event) :
    phaseSeq (a ++ b) = phaseSeq a ++ phaseSeq b := List.filterMap_append a b _

theorem completeCount_append (a b : List Event) :
    completeCount (a ++ b) = completeCount a + completeCount b := List.countP_append _ a b

theorem skipN_work_run (k : Nat) :
    ∀ m : Machine, m.status = .WORK → m.totalRounds = m.currentRound + (k : Int) →
    (skipN (2 * k + 1) m).1.status = .COMPLETE ∧
    phaseSeq (skipN (2 * k + 1) m).2 = restWorkPairs k ∧
    completeCount (skipN (2 * k + 1) m).2 = 1 := by
  induction k with
  | zero =>
      intro m hs ht
      have hge : m.totalRounds ≤ m.currentRound := by omega
      have hnum : 2 * 0 + 1 = 0 + 1 := rfl
      rw [hnum, skipN_succ, skip_work_last hs hge]
      simp [skipN, phaseSeq, completeCount, restWorkPairs]
  | succ k ih =>
      intro m hs ht
      have hlt : m.currentRound < m.totalRounds := by omega
      have step1 := skip_work_mid hs hlt
      have hs1 : (skip m).1.status = .REST := by rw [step1]
      have step2 := skip_rest hs1
      have hs2 : (skip (skip m).1).1.status = .WORK := by rw [step2]
      have hr2 : (skip (skip m).1).1.totalRounds =
          (skip (skip m).1).1.currentRound + (k : Int) := by
        rw [step2]
        rw [step1]
        dsimp only
        omega
      have ihm := ih (skip (skip m).1).1 hs2 hr2
      have hnum : 2 * (k + 1) + 1 = ((2 * k + 1) + 1) + 1 := by omega
      rw [hnum, skipN_succ, skipN_succ]
      refine ⟨ihm.1, ?_, ?_⟩
      · rw [phaseSeq_append, phaseSeq_append, ihm.2.1]
        rw [congrArg Prod.snd step1, congrArg Prod.snd step2]
        simp [phaseSeq, restWorkPairs]
      · rw [completeCount_append, completeCount_append, ihm.2.2]
        rw [congrArg Prod.snd step1, congrArg Prod.snd step2]
        simp [completeCount]


theorem start_createTimer (cfg : Config) :
    start (createTimer cfg) =
      ({ config := cfg, status := .COUNTDOWN, previousStatus := none, currentRound := 1,
         totalRounds := cfg.rounds, timeRemaining := 3000, phaseDuration := 3000,
         rafScheduled := true, lastTimestamp := none, lastDisplayedSecond := none },
       [Event.onPhaseChange .COUNTDOWN, Event.onRoundChange 1 cfg.rounds,
        Event.onStateChange .COUNTDOWN]) := by
  unfold start createTimer
  simp

theorem restWorkPairs_count (k : Nat) :
    (restWorkPairs k).count Status.WORK = k ∧
    (restWorkPairs k).count Status.REST = k ∧
    (restWorkPairs k).count Status.COUNTDOWN = 0 := by
  induction k with
  | zero => simp [restWorkPairs]
  | succ k ih =>
      refine ⟨?_, ?_, ?_⟩ <;>
        simp [restWorkPairs, List.count_cons, ih.1, ih.2.1, ih.2.2]

theorem fullRun_eq (cfg : Config) :
    fullRun cfg = ((skipN (2 * cfg.rounds.toNat) (start (createTimer cfg)).1).1,
      (start (createTimer cfg)).2 ++
        (skipN (2 * cfg.rounds.toNat) (start (createTimer cfg)).1).2) := rfl

theorem fullRun_shape (cfg : Config) (h1 : 1 ≤ cfg.rounds) :
    (fullRun cfg).1.status = .COMPLETE ∧
    phaseSeq (fullRun cfg).2 = Status.COUNTDOWN :: workRestSeq cfg.rounds.toNat ∧
    completeCount (fullRun cfg).2 = 1 := by
  obtain ⟨p, hp⟩ : ∃ p : Nat, cfg.rounds.toNat = p + 1 := ⟨cfg.rounds.toNat - 1, by omega⟩
  have e0 := start_createTimer cfg
  have hs1 : (start (createTimer cfg)).1.status = .COUNTDOWN := by rw [e0]
  have e1 := skip_countdown hs1
  have hs2 : (skip (start (createTimer cfg)).1).1.status = .WORK := by rw [e1]
  have hr2 : (skip (start (createTimer cfg)).1).1.totalRounds =
      (skip (start (createTimer cfg)).1).1.currentRound + (p : Int) := by
    rw [e1]
    rw [e0]
    dsimp only
    omega
  have run := skipN_work_run p _ hs2 hr2
  have hnum : 2 * cfg.rounds.toNat = (2 * p + 1) + 1 := by omega
  rw [fullRun_eq, hnum, skipN_succ]
  refine ⟨run.1, ?_, ?_⟩
  · rw [phaseSeq_append, phaseSeq_append, run.2.1]
    rw [congrArg Prod.snd e0, congrArg Prod.snd e1, hp]
    simp [phaseSeq, workRestSeq]
  · rw [completeCount_append, completeCount_append, run.2.2]
    rw [congrArg Prod.snd e0, congrArg Prod.snd e1]
    simp [completeCount]


/-- C7: reset() from any reachable state returns a getState snapshot equal
to the post-construction snapshot. -/
theorem C7_reset_restores_initial (cfg : Config) (m : Machine)
    (hm : Reachable cfg m) :
    getState (reset m).1 = getState (createTimer cfg) := by
  have h := (reachable_base hm).2
  unfold reset createTimer getState
  simp [h]

/-- C7 witness. -/
theorem C7_reset_restores_initial_witness :
    getState (reset (createTimer ⟨30, 15, 8⟩)).1 = getState (createTimer ⟨30, 15, 8⟩) :=
  C7_reset_restores_initial ⟨30, 15, 8⟩ (createTimer ⟨30, 15, 8⟩) Reachable.init

/-- C8: the tick delta is clamped at 1000 ms. -/
theorem C8_delta_clamped (ts : Int) (m : Machine) :
    tickDelta ts m ≤ 1000 ∧
    (1000 < ts - m.lastTimestamp.getD ts → tickDelta ts m = 1000) ∧
    (0 < m.timeRemaining - tickDelta ts m →
      (tick ts m).1.timeRemaining = m.timeRemaining - tickDelta ts m ∧
      m.timeRemaining - (tick ts m).1.timeRemaining ≤ 1000) := by
  refine ⟨?_, ?_, ?_⟩
  · unfold tickDelta
    dsimp only
    split <;> omega
  · intro h
    unfold tickDelta
    dsimp only
    rw [if_pos h]
  · intro h
    have hd : tickDelta ts m ≤ 1000 := by
      unfold tickDelta
      dsimp only
      split <;> omega
    have he : (tick ts m).1.timeRemaining = m.timeRemaining - tickDelta ts m := by
      unfold tick
      dsimp only
      rw [if_neg (by omega)]
      split
      · rfl
      · split <;> rfl
    exact ⟨he, by omega⟩


/-- C8 witness: a 3000 ms gap is charged as only 1000 ms. -/
theorem C8_delta_clamped_witness :
    tickDelta 3000 mGap = 1000 ∧
    (tick 3000 mGap).1.timeRemaining = mGap.timeRemaining - tickDelta 3000 mGap ∧
    mGap.timeRemaining - (tick 3000 mGap).1.timeRemaining ≤ 1000 :=
  ⟨(C8_delta_clamped 3000 mGap).2.1 (by decide),
   ((C8_delta_clamped 3000 mGap).2.2 (by decide)).1,
   ((C8_delta_clamped 3000 mGap).2.2 (by decide)).2⟩

/-- C10: getSettings always produces an in-range configuration, with the
fallbacks 30, 15 and 8 when a field does not parse as an integer. -/
theorem C10_settings_in_range (w r n : String) :
    (5 ≤ (getSettings w r n).workDuration ∧ (getSettings w r n).workDuration ≤ 300) ∧
    (5 ≤ (getSettings w r n).restDuration ∧ (getSettings w r n).restDuration ≤ 300) ∧
    (1 ≤ (getSettings w r n).rounds ∧ (getSettings w r n).rounds ≤ 50) ∧
    (jsParseInt10 w = none → (getSettings w r n).workDuration = 30) ∧
    (jsParseInt10 r = none → (getSettings w r n).restDuration = 15) ∧
    (jsParseInt10 n = none → (getSettings w r n).rounds = 8) := by
  unfold getSettings sanitizeNumericInput clamp
  dsimp only
  refine ⟨⟨?_, ?_⟩, ⟨?_, ?_⟩, ⟨?_, ?_⟩, ?_, ?_, ?_⟩ <;> try omega
  all_goals intro h ; rw [h] ; rfl

/-- C10 witness: unparsable work text falls back to 30, oversized rest text
clamps to 300, empty rounds text falls back to 8. -/
theorem C10_settings_in_range_witness :
    (getSettings "abc" "500" "").workDuration = 30 ∧
    (getSettings "abc" "500" "").restDuration = 300 ∧
    (getSettings "abc" "500" "").rounds = 8 ∧
    1 ≤ (getSettings "abc" "500" "").rounds :=
  ⟨(C10_settings_in_range "abc" "500" "").2.2.2.1 (by decide),
   by decide,
   (C10_settings_in_range "abc" "500" "").2.2.2.2.2 (by decide),
   (C10_settings_in_range "abc" "500" "").2.2.1.1⟩


/-- Tick delta is zero whenever the clock reference has just been cleared. -/
theorem tickDelta_none (ts : Int) (m : Machine) (h : m.lastTimestamp = none) :
    tickDelta ts m = 0 := by
  unfold tickDelta
  rw [h]
  simp

/-- C6: pause then resume (no tick in between) leaves timeRemaining and
phaseDuration unchanged, and the paused wall-clock time is not charged: the
next tick, at any timestamp whatsoever, computes delta 0 and leaves
timeRemaining unchanged. -/
theorem C6_pause_resume_frame (m : Machine)
    (hact : isInterruptible m.status = true) :
    (resume (pause m).1).1.timeRemaining = m.timeRemaining ∧
    (resume (pause m).1).1.phaseDuration = m.phaseDuration ∧
    (resume (pause m).1).1.status = m.status ∧
    (resume (pause m).1).1.lastTimestamp = none ∧
    ∀ ts : Int, tickDelta ts (resume (pause m).1).1 = 0 ∧
      (0 < m.timeRemaining →
        (tick ts (resume (pause m).1).1).1.timeRemaining = m.timeRemaining) := by
  have hres : (resume (pause m).1).1 =
      { m with previousStatus := none, lastTimestamp := none, rafScheduled := true } := by
    unfold pause
    rw [if_pos hact]
    rfl
  have hl : (resume (pause m).1).1.lastTimestamp = none := by rw [hres]
  have htr : (resume (pause m).1).1.timeRemaining = m.timeRemaining := by rw [hres]
  have hpd : (resume (pause m).1).1.phaseDuration = m.phaseDuration := by rw [hres]
  have hst : (resume (pause m).1).1.status = m.status := by rw [hres]
  have hd : ∀ ts : Int, tickDelta ts (resume (pause m).1).1 = 0 := fun ts =>
    tickDelta_none ts _ hl
  refine ⟨htr, hpd, hst, hl, ?_⟩
  intro ts
  refine ⟨hd ts, ?_⟩
  intro hpos
  unfold tick
  dsimp only
  rw [hd, htr]
  rw [if_neg (by omega)]
  split
  · dsimp only
    omega
  · split <;> (dsimp only ; omega)


/-- C6 witness, with a 99999 ms wall-clock gap across the pause. -/
theorem C6_pause_resume_frame_witness :
    (resume (pause (start (createTimer ⟨30, 15, 2⟩)).1).1).1.timeRemaining =
      (start (createTimer ⟨30, 15, 2⟩)).1.timeRemaining ∧
    tickDelta 99999 (resume (pause (start (createTimer ⟨30, 15, 2⟩)).1).1).1 = 0 ∧
    (tick 99999 (resume (pause (start (createTimer ⟨30, 15, 2⟩)).1).1).1).1.timeRemaining =
      (start (createTimer ⟨30, 15, 2⟩)).1.timeRemaining :=
  ⟨(C6_pause_resume_frame (start (createTimer ⟨30, 15, 2⟩)).1 (by decide)).1,
   ((C6_pause_resume_frame (start (createTimer ⟨30, 15, 2⟩)).1 (by decide)).2.2.2.2 99999).1,
   ((C6_pause_resume_frame (start (createTimer ⟨30, 15, 2⟩)).1 (by decide)).2.2.2.2 99999).2
     (by decide)⟩

/-- C2 fails as stated: skipping the countdown changes status from
COUNTDOWN to WORK but fires no onStateChange at all. -/
theorem C2_counterexample :
    (start (createTimer ⟨30, 15, 2⟩)).1.status = Status.COUNTDOWN ∧
    (skip (start (createTimer ⟨30, 15, 2⟩)).1).1.status = Status.WORK ∧
    stateChanges (skip (start (createTimer ⟨30, 15, 2⟩)).1).2 = [] := by decide

/-- C2 (amended): onStateChange fires exactly once with the new status on
start (COUNTDOWN), pause (PAUSED), resume (the restored status), reset
(IDLE) and on the transition into COMPLETE, but phase-end transitions into
WORK and REST fire no onStateChange. -/
theorem C2_state_change_events (m : Machine) :
    stateChanges (start m).2 = (if m.status = .IDLE then [Status.COUNTDOWN] else []) ∧
    stateChanges (pause m).2 =
      (if isInterruptible m.status then [Status.PAUSED] else []) ∧
    stateChanges (resume m).2 =
      (match m.status, m.previousStatus with
       | .PAUSED, some p => [p]
       | _, _ => []) ∧
    stateChanges (reset m).2 = [Status.IDLE] ∧
    stateChanges (handlePhaseEnd m).2 =
      (if m.status = .WORK ∧ m.totalRounds ≤ m.currentRound
       then [Status.COMPLETE] else []) := by
  refine ⟨?_, ?_, ?_, ?_, ?_⟩
  · unfold start
    split <;> simp_all [stateChanges]
  · unfold pause
    split <;> simp_all [stateChanges]
  · unfold resume
    cases hs : m.status <;> cases hp : m.previousStatus <;> simp [stateChanges]
  · simp [reset, stateChanges]
  · unfold handlePhaseEnd
    cases hs : m.status <;> simp [stateChanges]
    split <;> simp_all [stateChanges, ge_iff_le]


/-- handlePhaseEnd only looks at config, status, round bookkeeping and the
time fields: machines agreeing there produce the same snapshot and the same
callbacks. -/
theorem handlePhaseEnd_ext {a b : Machine}
    (hc : a.config = b.config) (hs : a.status = b.status)
    (hr : a.currentRound = b.currentRound) (ht : a.totalRounds = b.totalRounds)
    (htr : a.timeRemaining = b.timeRemaining) (hpd : a.phaseDuration = b.phaseDuration) :
    getState (handlePhaseEnd a).1 = getState (handlePhaseEnd b).1 ∧
    (handlePhaseEnd a).2 = (handlePhaseEnd b).2 := by
  unfold handlePhaseEnd
  rw [hs]
  cases hsb : b.status <;>
    simp_all [getState] <;>
    try split <;>
    simp_all [getState]

/-- C3 fails as stated: from mCd, natural expiry (tick at 3000) and skip()
produce the same resulting state, but different callback sequences (skip
omits the final onTick with timeRemaining 0). -/
theorem C3_counterexample :
    getState (tick 3000 mCd).1 = getState (skip mCd).1 ∧
    (tick 3000 mCd).2 ≠ (skip mCd).2 := by decide

/-- C3 (amended): when a tick would end the phase, skip() yields the same
getState snapshot and the same callbacks as the natural expiry, except that
the natural expiry additionally emits one leading onTick with
timeRemaining 0. -/
theorem C3_skip_matches_expiry (m : Machine) (ts : Int)
    (hact : isInterruptible m.status = true)
    (hend : m.timeRemaining - tickDelta ts m ≤ 0) :
    getState (tick ts m).1 = getState (skip m).1 ∧
    (tick ts m).2 =
      Event.onTick (getState { m with timeRemaining := 0 }) :: (skip m).2 := by
  have hskip : skip m =
      handlePhaseEnd { m with timeRemaining := 0, rafScheduled := false } := by
    unfold skip
    cases hs : m.status <;> simp_all [isInterruptible]
  have htick1 : (tick ts m).1 = (handlePhaseEnd { m with lastTimestamp := some ts, rafScheduled := false, timeRemaining := 0 }).1 := by
    unfold tick
    dsimp only
    rw [if_pos hend]
  have htick2 : (tick ts m).2 = Event.onTick (getState { m with lastTimestamp := some ts, rafScheduled := false, timeRemaining := 0 }) :: (handlePhaseEnd { m with lastTimestamp := some ts, rafScheduled := false, timeRemaining := 0 }).2 := by
    unfold tick
    dsimp only
    rw [if_pos hend]
  have hext := handlePhaseEnd_ext
    (a := { m with lastTimestamp := some ts, rafScheduled := false, timeRemaining := 0 })
    (b := { m with timeRemaining := 0, rafScheduled := false })
    rfl rfl rfl rfl rfl rfl
  refine ⟨?_, ?_⟩
  · rw [htick1, hskip]
    exact hext.1
  · rw [htick2, hskip]
    exact congrArg₂ List.cons rfl hext.2

/-- C3 witness: the amended equivalence at the concrete state mCd. -/
theorem C3_skip_matches_expiry_witness :
    getState (tick 3000 mCd).1 = getState (skip mCd).1 ∧
    (tick 3000 mCd).2 =
      Event.onTick (getState { mCd with timeRemaining := 0 }) :: (skip mCd).2 :=
  C3_skip_matches_expiry mCd 3000 (by decide) (by decide)


/-- C4 fails as stated: from a paused state, skip() and resume();skip()
agree on the resulting state but not on the emitted callbacks: the
resume();skip() form additionally fires onStateChange with the restored
status. -/
theorem C4_counterexample :
    getState (skip mPd).1 = getState (skip (resume mPd).1).1 ∧
    (resume mPd).2 ++ (skip (resume mPd).1).2 ≠ (skip mPd).2 := by decide

/-- handlePhaseEnd ignores the clock reference. -/
theorem handlePhaseEnd_lastTs (m : Machine) (o : Option Int) :
    getState (handlePhaseEnd { m with lastTimestamp := o }).1 =
      getState (handlePhaseEnd m).1 ∧
    (handlePhaseEnd { m with lastTimestamp := o }).2 = (handlePhaseEnd m).2 :=
  handlePhaseEnd_ext (a := { m with lastTimestamp := o }) (b := m) rfl rfl rfl rfl rfl rfl

/-- C4 (amended): skip() while PAUSED with a recorded previous status yields
the same getState snapshot as resume() followed by skip(), and the same
callbacks except that the resume();skip() form emits one extra leading
onStateChange with the restored status. -/
theorem C4_skip_while_paused (m : Machine) (p : Status)
    (hs : m.status = .PAUSED) (hp : m.previousStatus = some p) :
    getState (skip m).1 = getState (skip (resume m).1).1 ∧
    (resume m).2 ++ (skip (resume m).1).2 = Event.onStateChange p :: (skip m).2 := by
  have hres : resume m = ({ m with status := p, previousStatus := none, lastTimestamp := none, rafScheduled := true }, [Event.onStateChange p]) := by
    unfold resume
    rw [hs, hp]
  rw [hres]
  dsimp only
  unfold skip
  rw [hs, hp]
  dsimp only
  cases p
  case COUNTDOWN =>
    dsimp only
    rw [if_pos (by decide)]
    refine ⟨((handlePhaseEnd_lastTs { m with status := Status.COUNTDOWN, previousStatus := none, timeRemaining := 0, rafScheduled := false } none).1).symm, ?_⟩
    rw [List.singleton_append]
    exact congrArg₂ List.cons rfl (handlePhaseEnd_lastTs { m with status := Status.COUNTDOWN, previousStatus := none, timeRemaining := 0, rafScheduled := false } none).2
  case WORK =>
    dsimp only
    rw [if_pos (by decide)]
    refine ⟨((handlePhaseEnd_lastTs { m with status := Status.WORK, previousStatus := none, timeRemaining := 0, rafScheduled := false } none).1).symm, ?_⟩
    rw [List.singleton_append]
    exact congrArg₂ List.cons rfl (handlePhaseEnd_lastTs { m with status := Status.WORK, previousStatus := none, timeRemaining := 0, rafScheduled := false } none).2
  case REST =>
    dsimp only
    rw [if_pos (by decide)]
    refine ⟨((handlePhaseEnd_lastTs { m with status := Status.REST, previousStatus := none, timeRemaining := 0, rafScheduled := false } none).1).symm, ?_⟩
    rw [List.singleton_append]
    exact congrArg₂ List.cons rfl (handlePhaseEnd_lastTs { m with status := Status.REST, previousStatus := none, timeRemaining := 0, rafScheduled := false } none).2
  all_goals simp [isInterruptible, getState]

/-- C4 witness: the amended equivalence at the concrete paused state mPd. -/
theorem C4_skip_while_paused_witness :
    getState (skip mPd).1 = getState (skip (resume mPd).1).1 ∧
    (resume mPd).2 ++ (skip (resume mPd).1).2 =
      Event.onStateChange Status.COUNTDOWN :: (skip mPd).2 :=
  C4_skip_while_paused mPd Status.COUNTDOWN (by decide) (by decide)


theorem handlePhaseEnd_round (m : Machine) :
    (handlePhaseEnd m).1.currentRound =
      (if m.status = .REST then m.currentRound + 1 else m.currentRound) := by
  unfold handlePhaseEnd
  cases hs : m.status <;> simp [hs] <;> split <;> rfl

theorem pause_round (m : Machine) : (pause m).1.currentRound = m.currentRound := by
  unfold pause
  split <;> rfl

theorem resume_round (m : Machine) : (resume m).1.currentRound = m.currentRound := by
  unfold resume
  split <;> rfl

theorem reset_round (m : Machine) : (reset m).1.currentRound = 1 := rfl

theorem start_round (m : Machine) :
    (start m).1.currentRound = (if m.status = .IDLE then 1 else m.currentRound) := by
  unfold start
  split <;> simp_all

theorem tick_round (ts : Int) (m : Machine) :
    (tick ts m).1.currentRound = m.currentRound ∨
      (m.status = .REST ∧ (tick ts m).1.currentRound = m.currentRound + 1) := by
  unfold tick
  dsimp only
  split
  · rw [handlePhaseEnd_round]
    dsimp only
    by_cases hr : m.status = .REST
    · right
      rw [if_pos hr]
      exact ⟨hr, rfl⟩
    · left
      rw [if_neg hr]
  · split
    · left
      rfl
    · split <;> (left ; rfl)

theorem skip_round (m : Machine) :
    (skip m).1.currentRound = m.currentRound ∨
      ((m.status = .REST ∨ (m.status = .PAUSED ∧ m.previousStatus = some .REST)) ∧
       (skip m).1.currentRound = m.currentRound + 1) := by
  unfold skip
  cases hs : m.status
  case PAUSED =>
    cases hp : m.previousStatus
    case none =>
      left
      simp [hs, isInterruptible]
    case some prev =>
      cases prev
      case COUNTDOWN =>
        left
        dsimp only
        rw [if_pos (by decide), handlePhaseEnd_round]
        simp
      case WORK =>
        left
        dsimp only
        rw [if_pos (by decide), handlePhaseEnd_round]
        simp
      case REST =>
        refine Or.inr ⟨Or.inr ⟨rfl, rfl⟩, ?_⟩
        dsimp only
        rw [if_pos (by decide), handlePhaseEnd_round]
        simp
      case IDLE =>
        left
        dsimp only
        rw [if_neg (by decide)]
      case PAUSED =>
        left
        dsimp only
        rw [if_neg (by decide)]
      case COMPLETE =>
        left
        dsimp only
        rw [if_neg (by decide)]
  case REST =>
    refine Or.inr ⟨Or.inl rfl, ?_⟩
    dsimp only
    rw [hs]
    rw [if_pos (by decide), handlePhaseEnd_round]
    simp
  all_goals
    left
    dsimp only
    rw [hs]
    first
      | (rw [if_pos (by decide), handlePhaseEnd_round] ; simp)
      | (rw [if_neg (by decide)])


/-- C5: in every reachable state currentRound stays in [1, totalRounds];
it is incremented exactly by the REST-to-WORK phase end (also when that
phase end is forced by skip, possibly out of pause), reset to 1 by start
and reset, and changed by no other operation. -/
theorem C5_round_bookkeeping (cfg : Config) (m : Machine)
    (h1 : 1 ≤ cfg.rounds) (hm : Reachable cfg m) :
    (1 ≤ m.currentRound ∧ m.currentRound ≤ m.totalRounds) ∧
    ((handlePhaseEnd m).1.currentRound =
      (if m.status = .REST then m.currentRound + 1 else m.currentRound)) ∧
    (pause m).1.currentRound = m.currentRound ∧
    (resume m).1.currentRound = m.currentRound ∧
    (reset m).1.currentRound = 1 ∧
    ((start m).1.currentRound = (if m.status = .IDLE then 1 else m.currentRound)) ∧
    (∀ ts : Int, (tick ts m).1.currentRound = m.currentRound ∨
       (m.status = .REST ∧ (tick ts m).1.currentRound = m.currentRound + 1)) ∧
    ((skip m).1.currentRound = m.currentRound ∨
       ((m.status = .REST ∨ (m.status = .PAUSED ∧ m.previousStatus = some .REST)) ∧
        (skip m).1.currentRound = m.currentRound + 1)) := by
  have hinv := inv_reachable h1 hm
  exact ⟨⟨hinv.2.2.1, hinv.2.2.2.1⟩, handlePhaseEnd_round m, pause_round m,
    resume_round m, reset_round m, start_round m, fun ts => tick_round ts m,
    skip_round m⟩

/-- C5 witness: the bound and the start/reset clauses at the initial state. -/
theorem C5_round_bookkeeping_witness :
    (1 ≤ (createTimer ⟨30, 15, 8⟩).currentRound ∧
     (createTimer ⟨30, 15, 8⟩).currentRound ≤ (createTimer ⟨30, 15, 8⟩).totalRounds) ∧
    (reset (createTimer ⟨30, 15, 8⟩)).1.currentRound = 1 :=
  ⟨(C5_round_bookkeeping ⟨30, 15, 8⟩ (createTimer ⟨30, 15, 8⟩) (by decide) Reachable.init).1,
   (C5_round_bookkeeping ⟨30, 15, 8⟩ (createTimer ⟨30, 15, 8⟩) (by decide)
      Reachable.init).2.2.2.2.2.1⟩

/-- C9: in every reachable state phaseDuration is 0, 3000, or one of the
two configured phase lengths in milliseconds, and it is 0 exactly in IDLE
(PAUSED and COMPLETE retain the last phase's nonzero duration). -/
theorem C9_phase_duration_values (cfg : Config) (m : Machine)
    (hw : 1 ≤ cfg.workDuration) (hr : 1 ≤ cfg.restDuration) (h1 : 1 ≤ cfg.rounds)
    (hm : Reachable cfg m) :
    (m.phaseDuration = 0 ∨ m.phaseDuration = 3000 ∨
     m.phaseDuration = cfg.workDuration * 1000 ∨
     m.phaseDuration = cfg.restDuration * 1000) ∧
    (m.phaseDuration = 0 ↔ m.status = .IDLE) := by
  have hinv := inv_reachable h1 hm
  obtain ⟨hc, ht, _, _, _, _, _, h8⟩ := hinv
  unfold phaseFits at h8
  cases hs : m.status
  case PAUSED =>
    rw [hs] at h8
    cases hp : m.previousStatus <;> rw [hp] at h8
    case none => simp at h8
    case some prev =>
      cases prev <;> simp_all [phaseOf, isInterruptible] <;> omega
  all_goals
    rw [hs] at h8
    simp_all [phaseOf]
    try omega

/-- C9 witness: the fresh timer state. -/
theorem C9_phase_duration_values_witness :
    ((createTimer ⟨30, 15, 8⟩).phaseDuration = 0 ∨
     (createTimer ⟨30, 15, 8⟩).phaseDuration = 3000 ∨
     (createTimer ⟨30, 15, 8⟩).phaseDuration = (30 : Int) * 1000 ∨
     (createTimer ⟨30, 15, 8⟩).phaseDuration = (15 : Int) * 1000) ∧
    ((createTimer ⟨30, 15, 8⟩).phaseDuration = 0 ↔
      (createTimer ⟨30, 15, 8⟩).status = .IDLE) :=
  C9_phase_duration_values ⟨30, 15, 8⟩ (createTimer ⟨30, 15, 8⟩)
    (by decide) (by decide) (by decide) Reachable.init


/-- C1: for every valid configuration, the run from start() in which every
phase expires reaches COMPLETE, fires onComplete exactly once, and its
phase-change sequence is exactly one COUNTDOWN followed by totalRounds WORK
phases strictly alternating with totalRounds - 1 REST phases. -/
theorem C1_full_run (cfg : Config)
    (h1 : 1 ≤ cfg.rounds) (h2 : cfg.rounds ≤ 50)
    (hw1 : 5 ≤ cfg.workDuration) (hw2 : cfg.workDuration ≤ 300)
    (hr1 : 5 ≤ cfg.restDuration) (hr2 : cfg.restDuration ≤ 300) :
    (fullRun cfg).1.status = .COMPLETE ∧
    completeCount (fullRun cfg).2 = 1 ∧
    phaseSeq (fullRun cfg).2 = Status.COUNTDOWN :: workRestSeq cfg.rounds.toNat ∧
    (phaseSeq (fullRun cfg).2).count Status.COUNTDOWN = 1 ∧
    (phaseSeq (fullRun cfg).2).count Status.WORK = cfg.rounds.toNat ∧
    (phaseSeq (fullRun cfg).2).count Status.REST = cfg.rounds.toNat - 1 := by
  obtain ⟨hC, hP, hN⟩ := fullRun_shape cfg h1
  obtain ⟨p, hp⟩ : ∃ p : Nat, cfg.rounds.toNat = p + 1 := ⟨cfg.rounds.toNat - 1, by omega⟩
  refine ⟨hC, hN, hP, ?_, ?_, ?_⟩ <;>
    rw [hP, hp] <;>
    simp [workRestSeq, List.count_cons, (restWorkPairs_count p).1,
      (restWorkPairs_count p).2.1, (restWorkPairs_count p).2.2]

/-- C1 witness: the two-round configuration of the spec scenario. -/
theorem C1_full_run_witness :
    (fullRun ⟨30, 15, 2⟩).1.status = .COMPLETE ∧
    completeCount (fullRun ⟨30, 15, 2⟩).2 = 1 ∧
    phaseSeq (fullRun ⟨30, 15, 2⟩).2 = Status.COUNTDOWN :: workRestSeq 2 ∧
    (phaseSeq (fullRun ⟨30, 15, 2⟩).2).count Status.COUNTDOWN = 1 ∧
    (phaseSeq (fullRun ⟨30, 15, 2⟩).2).count Status.WORK = 2 ∧
    (phaseSeq (fullRun ⟨30, 15, 2⟩).2).count Status.REST = 2 - 1 :=
  C1_full_run ⟨30, 15, 2⟩ (by decide) (by decide) (by decide) (by decide)
    (by decide) (by decide)

end HiitHero
